import Mathlib

/-!
Verification model of the query-resolution pipeline of the
amira-voice-explorer repository.

The repository's core logic lives in near-duplicate revisions of a
search-and-summarize utility.  Two revisions are embedded here:

* `SearchUtil` models `src/src/utils/searchAndSummarize.ts` (the
  DeepSeek + NewsAPI revision): `isOutdatedResponse`,
  `simplifyQueryForNewsApi`, `fetchDeepSeekResults`,
  `fetchNewsApiResults` and the orchestrator `searchAndSummarize`.
* `Part003` models `src/unnamed/part_003` (the DeepSeek-only revision
  with a local extractive fallback): `isOutdatedResponse`,
  `initSummarizer` (with its `summarizerInitialized` / `summarizerFailed`
  flags, named `initStarted` / `failed` here), `createManualSummary`
  and the orchestrator `searchAndSummarize`.

JavaScript string primitives (`trim`, `toLowerCase`, `slice`,
`includes`, `split`, `join`) are modelled as executable functions on
the underlying character list.  String lengths are measured in
characters (the TS code measures UTF-16 units; they agree on the ASCII
text relevant here).  Network calls are modelled by an environment
that maps a query to the outcome of the `fetch` + `json()` pair:
either a thrown exception (with its `instanceof TypeError` status and
message) or an HTTP response with parsed data.  The orchestrators are
instrumented with an event trace recording provider calls, network
requests and condensation calls, so that the temporal claims about the
pipeline are statable.
-/

/-! ## JavaScript string primitives -/

/-- Whitespace test used by the model of JavaScript `trim` /  regex `\s`
(the common ASCII whitespace characters). -/
def isJsWs (c : Char) : Bool := c == ' ' || c == '\t' || c == '\n' || c == '\r'

/-- Model of JavaScript `String.prototype.trim`. -/
def jsTrim (s : String) : String :=
  ⟨((s.data.dropWhile isJsWs).reverse.dropWhile isJsWs).reverse⟩

/-- Model of JavaScript `String.prototype.toLowerCase` (character-wise). -/
def jsToLower (s : String) : String := ⟨s.data.map Char.toLower⟩

/-- Model of JavaScript `s.slice(0, n)` / `s.substring(0, n)`. -/
def strTake (s : String) (n : Nat) : String := ⟨s.data.take n⟩

/-- Model of JavaScript `s.includes(pat)`: `pat` occurs as a contiguous
substring of `s`. -/
def includesStr (s pat : String) : Bool := decide (List.IsInfix pat.data s.data)

/-- Model of JavaScript `Array.prototype.join(sep)` on an array of strings. -/
def joinSep (sep : String) : List String → String
  | [] => ""
  | [x] => x
  | x :: y :: rest => x ++ sep ++ joinSep sep (y :: rest)

/-- Result of one provider fetch: the `SearchResult` interface of the
source (`content: string; source?: string`). -/
structure SearchResult where
  content : String
  source : Option String
deriving DecidableEq

namespace SearchUtil

/-! ### Data model of src/src/utils/searchAndSummarize.ts -/

/-- The `error` object of an OpenRouter response (`message`, optional `code`). -/
structure ApiError where
  message : String
  code : Option Nat
deriving DecidableEq

/-- One entry of `choices`; the field models `choices[i].message.content`. -/
structure Choice where
  content : String
deriving DecidableEq

/-- Parsed body of an OpenRouter chat-completion response. -/
structure OpenRouterData where
  choices : Option (List Choice)
  error : Option ApiError
deriving DecidableEq

/-- HTTP-level metadata of a `fetch` response (`ok`, `status`, `statusText`). -/
structure HttpMeta where
  ok : Bool
  status : Nat
  statusText : String
deriving DecidableEq

/-- Outcome of one `await fetch(...)` + `await response.json()` pair:
either an exception was thrown (carrying whether it was an
`instanceof TypeError` and its message; all thrown values are modelled
as carrying a message), or a response with parsed data was obtained. -/
inductive FetchOutcome (δ : Type) where
  | thrown (isTypeError : Bool) (message : String)
  | response (meta : HttpMeta) (data : δ)
deriving DecidableEq

/-- One article of a NewsAPI response.  `description` and `content` are
nullable in the source interface; `title`, `url` and `source.name` are
plain strings. -/
structure Article where
  title : String
  description : Option String
  content : Option String
  url : String
  sourceName : String
deriving DecidableEq

/-- Parsed body of a NewsAPI response. -/
structure NewsApiData where
  status : String
  articles : Option (List Article)
deriving DecidableEq

/-- Environment of one orchestrator run: configured credentials, the
network behaviour of the two upstream endpoints, and the behaviour of
the summarizer (`initSummarizer` outcome and the summarization call,
either of which may throw). -/
structure Env where
  openRouterKey : String
  newsApiKey : String
  openRouterNet : String → FetchOutcome OpenRouterData
  newsNet : String → FetchOutcome NewsApiData
  summarizerLoad : Except String Unit
  summarize : String → Except String String

/-- Events recorded while the pipeline runs: the orchestrator's calls
into its three steps, and the actual network requests performed inside
the fetch helpers.  `condenseCall` records the exact string handed to
the summarizer. -/
inductive Ev where
  | primaryCall
  | fallbackCall
  | summarizerInit
  | condenseCall (input : String)
  | netOpenRouter
  | netNewsApi
deriving DecidableEq

/-- Predicate for the orchestrator-level primary-fetch call event. -/
def isPrimaryEv : Ev → Bool
  | .primaryCall => true
  | _ => false

/-- Predicate for the orchestrator-level fallback-fetch call event. -/
def isFallbackEv : Ev → Bool
  | .fallbackCall => true
  | _ => false

/-- Predicate for the condensation call event. -/
def isCondenseEv : Ev → Bool
  | .condenseCall _ => true
  | _ => false

/-- Predicate for actual network requests. -/
def isNetEv : Ev → Bool
  | .netOpenRouter => true
  | .netNewsApi => true
  | _ => false

/-- The network requests contained in a trace. -/
def netEvents (t : List Ev) : List Ev := t.filter isNetEv

/-! ### The staleness heuristic and query simplification -/

/-- Model of `isOutdatedResponse` (lines 59-69): case-insensitive
substring tests against the marker vocabulary of this revision, or
length below 200. -/
def isOutdatedResponse (content : String) : Bool :=
  includesStr (jsToLower content) "no recent information" ||
  includesStr (jsToLower content) "outdated" ||
  includesStr (jsToLower content) "no results found" ||
  includesStr (jsToLower content) "i don\x27t have access to real-time" ||
  includesStr (jsToLower content) "try using different keywords" ||
  decide ((jsToLower content).length < 200)

/-- Helper for `simplifyQueryForNewsApi`: if `q` starts
(case-insensitively) with `phrase` followed by at least one whitespace
character, drop the phrase and the whitespace run; `phrase` is given in
lower case. -/
def stripCIPhrase (phrase q : String) : Option String :=
  if (jsToLower q).data.take phrase.data.length = phrase.data then
    match q.data.drop phrase.data.length with
    | [] => none
    | c :: rest =>
      if isJsWs c then some ⟨(c :: rest).dropWhile isJsWs⟩ else none
  else none

/-- Model of `simplifyQueryForNewsApi` (lines 72-76): remove one leading
question phrasing (the regex alternation, anchored at the start,
case-insensitive) and trim. -/
def simplifyQueryForNewsApi (query : String) : String :=
  jsTrim <|
    match stripCIPhrase "what are the recent news about" query with
    | some r => r
    | none =>
      match stripCIPhrase "latest news on" query with
      | some r => r
      | none =>
        match stripCIPhrase "news about" query with
        | some r => r
        | none => query

/-! ### The two provider fetches -/

/-- Model of `fetchDeepSeekResults` (lines 79-145).  The function's own
try/catch converts every failure into ordinary content, so it returns a
plain `SearchResult`, together with the network requests it performed. -/
def fetchDeepSeekResults (env : Env) (query : String) : SearchResult × List Ev :=
  let cleanQuery := jsTrim query
  if cleanQuery = "" then
    (⟨"Please provide a search query.", none⟩, [])
  else if env.openRouterKey = "" then
    (⟨"OpenRouter API key is missing. Please configure it in environment variables.", none⟩, [])
  else
    match env.openRouterNet cleanQuery with
    | .thrown isTypeError message =>
      if isTypeError && includesStr message "fetch" then
        (⟨"Network error. Please check your internet connection and try again.", none⟩, [.netOpenRouter])
      else
        (⟨"Search failed: " ++ message ++ ". Please try again.", none⟩, [.netOpenRouter])
    | .response meta data =>
      if meta.ok = false then
        match data.error with
        | some err =>
          let errorMessage := if err.message = "" then "Unknown API error" else err.message
          let errorCode :=
            match err.code with
            | some c => if c = 0 then meta.status else c
            | none => meta.status
          if errorCode = 400 then
            (⟨"Query error: " ++ errorMessage ++ ". Please try a different search term.", none⟩, [.netOpenRouter])
          else if errorCode = 403 then
            (⟨"API key invalid or access denied. Please check your OpenRouter API key.", none⟩, [.netOpenRouter])
          else if errorCode = 429 then
            (⟨"Too many requests. Please wait a moment and try again.", none⟩, [.netOpenRouter])
          else
            (⟨"OpenRouter API error (" ++ toString errorCode ++ "): " ++ errorMessage, none⟩, [.netOpenRouter])
        | none =>
          -- `throw new Error(...)` caught by the function's own catch;
          -- the thrown `Error` is not a `TypeError`.
          (⟨"Search failed: HTTP " ++ toString meta.status ++ ": " ++ meta.statusText ++ ". Please try again.", none⟩, [.netOpenRouter])
      else
        match data.choices with
        | none =>
          (⟨"No results found for \"" ++ cleanQuery ++ "\". Try using different keywords.", none⟩, [.netOpenRouter])
        | some [] =>
          (⟨"No results found for \"" ++ cleanQuery ++ "\". Try using different keywords.", none⟩, [.netOpenRouter])
        | some (c :: _) =>
          if c.content = "" then
            (⟨"No results found for \"" ++ cleanQuery ++ "\". Try using different keywords.", none⟩, [.netOpenRouter])
          else
            (⟨c.content, none⟩, [.netOpenRouter])

/-- Model of the per-article formatting of `fetchNewsApiResults`
(lines 178-184); `idx` is the zero-based array index. -/
def formatArticle (idx : Nat) (a : Article) : String :=
  let source := if a.sourceName = "" then "Unknown source" else a.sourceName
  "Source " ++ toString (idx + 1) ++ " (" ++ source ++ "): " ++ a.title ++ "\n" ++
    a.description.getD "" ++ "\n" ++ a.content.getD ""

/-- Model of `articles.map((article, index) => ...)`. -/
def formatArticles (idx : Nat) : List Article → List String
  | [] => []
  | a :: rest => formatArticle idx a :: formatArticles (idx + 1) rest

/-- Model of the combined blob built by `fetchNewsApiResults`
(lines 177-185): every article formatted, joined with blank lines. -/
def combinedContent (articles : List Article) : String :=
  joinSep "\n\n" (formatArticles 0 articles)

/-- Model of `fetchNewsApiResults` (lines 148-195). -/
def fetchNewsApiResults (env : Env) (query : String) : SearchResult × List Ev :=
  let cleanQuery := jsTrim query
  if cleanQuery = "" then
    (⟨"Please provide a search query.", none⟩, [])
  else if env.newsApiKey = "" then
    (⟨"NewsAPI key is missing. Please configure it in environment variables.", none⟩, [])
  else
    let simplifiedQuery := simplifyQueryForNewsApi cleanQuery
    match env.newsNet simplifiedQuery with
    | .thrown isTypeError message =>
      if isTypeError && includesStr message "fetch" then
        (⟨"Network error. Please check your internet connection and try again.", none⟩, [.netNewsApi])
      else
        (⟨"NewsAPI search failed: " ++ message ++ ". Please try again.", none⟩, [.netNewsApi])
    | .response _meta data =>
      if data.status ≠ "ok" then
        (⟨"No recent news found for \"" ++ simplifiedQuery ++ "\". Try using different keywords.", none⟩, [.netNewsApi])
      else
        match data.articles with
        | none =>
          (⟨"No recent news found for \"" ++ simplifiedQuery ++ "\". Try using different keywords.", none⟩, [.netNewsApi])
        | some [] =>
          (⟨"No recent news found for \"" ++ simplifiedQuery ++ "\". Try using different keywords.", none⟩, [.netNewsApi])
        | some (a :: rest) =>
          (⟨combinedContent (a :: rest), some "NewsAPI"⟩, [.netNewsApi])

/-! ### The orchestrator -/

/-- The short-circuit test of the orchestrator (line 207): content
shorter than 200 characters or carrying a no-results sentinel is
returned verbatim. -/
def shortCircuit (content : String) : Bool :=
  decide (content.length < 200) ||
  includesStr content "No results found" ||
  includesStr content "No recent news found"

/-- The generic apology returned by the orchestrator's outermost catch
(line 229). -/
def apologyString : String :=
  "I\x27m sorry, I couldn\x27t find or process information for that query. Would you like to try asking something else?"

/-- The summarization tail of the orchestrator (lines 207-226), applied
to the active result and the trace accumulated so far.  `Except.error`
models an exception propagating towards the orchestrator's boundary
(`initSummarizer` or the summarizer call throwing). -/
def afterFetch (result : SearchResult) (pre : List Ev)
    (sload : Except String Unit) (summ : String → Except String String) :
    Except String String × List Ev :=
  if shortCircuit result.content then
    (Except.ok result.content, pre)
  else
    match sload with
    | .error e => (Except.error e, pre ++ [.summarizerInit])
    | .ok _ =>
      match summ (strTake result.content 1000) with
      | .error e =>
        (Except.error e, pre ++ [.summarizerInit, .condenseCall (strTake result.content 1000)])
      | .ok summaryText =>
        if result.source = some "NewsAPI" then
          (Except.ok (summaryText ++ "\n\nSource: NewsAPI"),
            pre ++ [.summarizerInit, .condenseCall (strTake result.content 1000)])
        else
          (Except.ok summaryText,
            pre ++ [.summarizerInit, .condenseCall (strTake result.content 1000)])

/-- The body of `searchAndSummarize` (lines 200-226) over arbitrary
provider behaviours: primary fetch, conditional fallback on the
staleness heuristic, then the summarization tail.  Providers are given
as possibly-throwing functions so that the orchestrator's boundary
behaviour is statable for every provider behaviour. -/
def resolveWith (p f : String → Except String (SearchResult × List Ev))
    (sload : Except String Unit) (summ : String → Except String String)
    (query : String) : Except String String × List Ev :=
  match p query with
  | .error e => (Except.error e, [.primaryCall])
  | .ok (r0, n0) =>
    if isOutdatedResponse r0.content then
      match f query with
      | .error e => (Except.error e, .primaryCall :: n0 ++ [.fallbackCall])
      | .ok (r1, n1) => afterFetch r1 (.primaryCall :: n0 ++ .fallbackCall :: n1) sload summ
    else
      afterFetch r0 (.primaryCall :: n0) sload summ

/-- Model of `searchAndSummarize` (lines 198-231) over arbitrary
provider behaviours: the body wrapped in the outermost try/catch, which
converts any escaped exception into the generic apology. -/
def searchAndSummarizeWith (p f : String → Except String (SearchResult × List Ev))
    (sload : Except String Unit) (summ : String → Except String String)
    (query : String) : String × List Ev :=
  match resolveWith p f sload summ query with
  | (.ok s, t) => (s, t)
  | (.error _, t) => (apologyString, t)

/-- Model of the exported `searchAndSummarize`, instantiated with the
repository's two fetch helpers (which never throw: their own catches
convert every failure into content). -/
def searchAndSummarize (env : Env) (query : String) : String × List Ev :=
  searchAndSummarizeWith
    (fun s => Except.ok (fetchDeepSeekResults env s))
    (fun s => Except.ok (fetchNewsApiResults env s))
    env.summarizerLoad env.summarize query

/-- The `result` variable of the orchestrator after the conditional
fallback (lines 200-205): the provider result whose content enters the
summarization step. -/
def activeResult (env : Env) (query : String) : SearchResult :=
  if isOutdatedResponse (fetchDeepSeekResults env query).1.content then
    (fetchNewsApiResults env query).1
  else
    (fetchDeepSeekResults env query).1

end SearchUtil

namespace Part003

/-! ### Model of src/unnamed/part_003 -/

/-- Model of this revision's `isOutdatedResponse` (lines 50-62): the
full stale-marker vocabulary (including the knowledge-cutoff phrases)
and the 150-character threshold. -/
def isOutdatedResponse (content : String) : Bool :=
  includesStr (jsToLower content) "no recent information" ||
  includesStr (jsToLower content) "outdated" ||
  includesStr (jsToLower content) "no results found" ||
  includesStr (jsToLower content) "i don\x27t have access to real-time" ||
  includesStr (jsToLower content) "try using different keywords" ||
  includesStr (jsToLower content) "my knowledge cutoff" ||
  includesStr (jsToLower content) "as of my last update" ||
  decide ((jsToLower content).length < 150)

/-- The module-level singleton state of the summarizer (lines 22-24):
the handle, the `summarizerInitialized` flag (named `initStarted` here)
and the `summarizerFailed` flag (named `failed`).  `H` is the abstract
type of pipeline handles. -/
structure SummState (H : Type) where
  summ : Option H
  initStarted : Bool
  failed : Bool

/-- Model of `initSummarizer` (lines 27-47) as one state transition.
`load` is the outcome the `pipeline(...)` call would have on this
attempt.  Returns the handle handed back to the caller, the new state,
and whether a `pipeline(...)` load was actually attempted. -/
def initSummarizer {H : Type} (load : Except Unit H) (st : SummState H) :
    Option H × SummState H × Bool :=
  if st.failed then
    (none, st, false)
  else if st.summ.isNone && !st.initStarted then
    match load with
    | .ok h => (some h, SummState.mk (some h) true false, true)
    | .error _ => (none, SummState.mk st.summ true true, true)
  else
    (st.summ, st, false)

/-- A sequence of `initSummarizer` calls threaded through the singleton
state; returns the final state and the total number of `pipeline(...)`
load attempts. -/
def runInit {H : Type} : List (Except Unit H) → SummState H → SummState H × Nat
  | [], st => (st, 0)
  | load :: rest, st =>
    let r := initSummarizer load st
    let tail := runInit rest r.2.1
    (tail.1, (if r.2.2 then 1 else 0) + tail.2)

/-- Sentence-terminal punctuation of the regexes `[.!?]+` and `[.!?]$`. -/
def isSentencePunct (c : Char) : Bool := c == '.' || c == '!' || c == '?'

/-- Model of `content.split(/[.!?]+/).filter(s => s.trim().length > 0)`
(line 200).  Splitting on each terminator character yields the
regex-split pieces plus extra empty pieces (one for every additional
terminator in a run), and the filter removes exactly those, so the
filtered lists coincide. -/
def splitSentences (content : String) : List String :=
  ((content.data.splitOnP isSentencePunct).map (fun l => (⟨l⟩ : String))).filter
    (fun s => jsTrim s ≠ "")

/-- Model of the greedy sentence loop of `createManualSummary`
(lines 201-209): accumulate sentences while the projected length
(computed from the untrimmed sentence, as in the source) stays within
`maxLength`, stopping at the first sentence that does not fit. -/
def greedyTake (maxLength : Nat) : List String → String → String
  | [], summary => summary
  | sentence :: rest, summary =>
    if summary.length + sentence.length + 1 > maxLength then
      summary
    else
      greedyTake maxLength rest
        (if summary = "" then jsTrim sentence else summary ++ ". " ++ jsTrim sentence)

/-- Model of `summary.match(/[.!?]$/)`. -/
def endsWithPunct (s : String) : Bool :=
  match s.data.getLast? with
  | some c => isSentencePunct c
  | none => false

/-- Model of `createManualSummary` (lines 194-217): identity on content
within the budget, otherwise the greedy extractive summary with a final
period, falling back to hard truncation plus an ellipsis marker. -/
def createManualSummary (content : String) (maxLength : Nat) : String :=
  if content.length ≤ maxLength then
    content
  else
    let summary := greedyTake maxLength (splitSentences content) ""
    let summary2 :=
      if summary ≠ "" && !endsWithPunct summary then summary ++ "." else summary
    if summary2 = "" then strTake content maxLength ++ "..." else summary2

/-- Condensation events of this revision's orchestrator, recording the
exact string handed to each strategy. -/
inductive P3Ev where
  | condenseAI (input : String)
  | condenseManual (input : String)
deriving DecidableEq

/-- The short-circuit test of this revision's orchestrator (line 234). -/
def shortCircuit (content : String) : Bool :=
  decide (content.length < 150) ||
  includesStr content "No results found" ||
  includesStr content "No recent news found"

/-- The condensation block of the orchestrator (lines 239-260):
if an AI summarizer instance is available, summarize the content
truncated to 1500 characters, falling back to `createManualSummary` on
the full content when the summarizer call throws; without an instance,
use `createManualSummary` on the full content directly.
`summAvail` is whether `initSummarizer` yielded an instance and
`aiSumm` the behaviour of the summarizer call. -/
def condenseStep (summAvail : Bool) (aiSumm : String → Except String String)
    (content : String) : String × List P3Ev :=
  if summAvail then
    match aiSumm (strTake content 1500) with
    | .ok s => (s, [.condenseAI (strTake content 1500)])
    | .error _ =>
      (createManualSummary content 300,
        [.condenseAI (strTake content 1500), .condenseManual content])
  else
    (createManualSummary content 300, [.condenseManual content])

/-- The `result` variable after the conditional fallback (lines 225-231),
over abstract total providers (this revision's fetch helpers catch all
of their own failures). -/
def activeResult (p f : String → SearchResult) (query : String) : SearchResult :=
  if isOutdatedResponse (p query).content then f query else p query

/-- Model of this revision's `searchAndSummarize` (lines 220-271):
primary fetch, conditional fallback, short-circuit, condensation with
fallback strategy, and attribution appended exactly when the active
result carries a `source`.  Nothing in the body throws (the fetchers
and `initSummarizer` catch internally, and the summarizer call is
caught inline), so the outermost catch of the source is never
exercised and the model is total. -/
def searchAndSummarize (p f : String → SearchResult) (summAvail : Bool)
    (aiSumm : String → Except String String) (query : String) :
    String × List P3Ev :=
  let result := activeResult p f query
  if shortCircuit result.content then
    (result.content, [])
  else
    let c := condenseStep summAvail aiSumm result.content
    match result.source with
    | some src => (c.1 ++ "\n\nSource: " ++ src, c.2)
    | none => (c.1, c.2)

end Part003

/-! ## Concrete fixtures used to evaluate the models on explicit inputs -/

/-- The stale-marker vocabulary listed by the specification (section 4.2),
in lower case. -/
def specStaleVocab : List String :=
  ["no recent information", "outdated", "no results found",
   "i don\x27t have access to real-time data", "my knowledge cutoff",
   "as of my last update"]

/-- A 300-character answer containing none of the stale markers. -/
def answer300 : String := ⟨List.replicate 300 'a'⟩

/-- An environment whose network always fails; used only to evaluate
runs that must not reach the network. -/
def plainEnv : SearchUtil.Env :=
  ⟨"", "",
    fun _ => SearchUtil.FetchOutcome.thrown true "fetch failed",
    fun _ => SearchUtil.FetchOutcome.thrown true "fetch failed",
    Except.ok (), fun _ => Except.ok ""⟩

/-- Environment where the primary answer is stale and the fallback
returns one short article: the combined NewsAPI content is under 200
characters, so the orchestrator short-circuits with a result whose
`source` is set. -/
def envC4 : SearchUtil.Env :=
  ⟨"key", "newskey",
    fun _ => SearchUtil.FetchOutcome.response ⟨true, 200, "OK"⟩
      ⟨some [⟨"This answer is sadly outdated."⟩], none⟩,
    fun _ => SearchUtil.FetchOutcome.response ⟨true, 200, "OK"⟩
      ⟨"ok", some [⟨"T", some "D", some "C", "http://u", "Src"⟩]⟩,
    Except.ok (), fun s => Except.ok ("SUMMARY: " ++ strTake s 5)⟩

/-- A provider behaviour that throws (models a connection refusal
escaping a provider). -/
def boomProvider : String → Except String (SearchResult × List SearchUtil.Ev) :=
  fun _ => Except.error "connection refused"

/-- A provider behaviour returning empty content without network use. -/
def okProvider : String → Except String (SearchResult × List SearchUtil.Ev) :=
  fun _ => Except.ok (⟨"", none⟩, [])

/-- A 2200-character content blob (no sentence terminators). -/
def c2200 : String := ⟨List.replicate 2200 'a'⟩

/-- A 200-character content blob. -/
def c200 : String := ⟨List.replicate 200 'b'⟩

/-- Provider returning the 2200-character content. -/
def pC6 : String → SearchResult := fun _ => ⟨c2200, none⟩

/-- Provider returning the 200-character content. -/
def pC6w : String → SearchResult := fun _ => ⟨c200, none⟩

/-- A summarizer call behaviour that always succeeds. -/
def aiOk : String → Except String String := fun _ => Except.ok "a concise summary"

/-- A summarizer call behaviour that always throws. -/
def aiBoom : String → Except String String := fun _ => Except.error "summarizer crashed"

/-- A long article body for the C7 fixtures. -/
def longText : String :=
  "This is a sufficiently long piece of article content for the combination test."

/-- Five mock articles, of which the last two have near-empty content
(the fourth has empty content, the fifth a null content field). -/
def as5 : List SearchUtil.Article :=
  [⟨"Alpha", some "d1", some longText, "https://example.com/1", "S1"⟩,
   ⟨"Beta", some "d2", some longText, "https://example.com/2", "S2"⟩,
   ⟨"Gamma", some "d3", some longText, "https://example.com/3", "S3"⟩,
   ⟨"TinyFour", none, some "", "https://example.com/4", "S4"⟩,
   ⟨"TinyFive", none, none, "https://example.com/5", "S5"⟩]

/-- Environment whose NewsAPI endpoint returns the five mock articles. -/
def envC7 : SearchUtil.Env :=
  ⟨"key", "newskey",
    fun _ => SearchUtil.FetchOutcome.thrown true "unused",
    fun _ => SearchUtil.FetchOutcome.response ⟨true, 200, "OK"⟩ ⟨"ok", some as5⟩,
    Except.ok (), fun _ => Except.ok ""⟩

/-- A primary provider whose answer is stale (too short). -/
def p8 : String → SearchResult := fun _ => ⟨"stale", none⟩

/-- A fallback provider returning short content with a known source. -/
def f8 : String → SearchResult := fun _ => ⟨"hi", some "DeepSeek News"⟩

/-- A fallback provider returning long content with a known source. -/
def f8w : String → SearchResult := fun _ => ⟨c200, some "DeepSeek News"⟩

/-- A summarizer call behaviour returning a fixed condensed answer. -/
def as8 : String → Except String String := fun _ => Except.ok "condensed"

/-! ## Helper lemmas -/

/-- Length of a string built from an explicit character list. -/
theorem strLen_mk (l : List Char) : (⟨l⟩ : String).length = l.length := rfl

/-- Lower-casing preserves the character count. -/
theorem jsToLower_length (s : String) : (jsToLower s).length = s.length := by
  show (s.data.map Char.toLower).length = s.length
  rw [List.length_map]
  rfl

/-- Dropping a prefix cannot lengthen a list. -/
theorem dropWhile_length_le {α : Type} (p : α → Bool) (l : List α) :
    (l.dropWhile p).length ≤ l.length := by
  induction l with
  | nil => simp
  | cons c cs ih =>
    rw [List.dropWhile_cons]
    by_cases h : p c
    · simp only [h, if_true, List.length_cons]
      exact Nat.le_succ_of_le ih
    · simp [h]

/-- Trimming cannot lengthen a string. -/
theorem jsTrim_length_le (s : String) : (jsTrim s).length ≤ s.length := by
  have h1 := dropWhile_length_le isJsWs s.data
  have h2 := dropWhile_length_le isJsWs (s.data.dropWhile isJsWs).reverse
  simp only [jsTrim, strLen_mk, List.length_reverse]
  calc ((s.data.dropWhile isJsWs).reverse.dropWhile isJsWs).length
      ≤ (s.data.dropWhile isJsWs).reverse.length := h2
    _ = (s.data.dropWhile isJsWs).length := List.length_reverse _
    _ ≤ s.data.length := h1

/-- If a concatenation occurs as a substring, so does its left part. -/
theorem includesStr_append_left (s a b : String)
    (h : includesStr s (a ++ b) = true) : includesStr s a = true := by
  simp only [includesStr, decide_eq_true_eq] at h ⊢
  have hpre : a.data <+: (a ++ b).data := by
    rw [String.data_append]
    exact List.prefix_append _ _
  exact hpre.isInfix.trans h

/-- Every member of the joined list occurs as a substring of the join. -/
theorem joinSep_mem_isInfix (sep : String) (l : List String) (s : String)
    (h : s ∈ l) : List.IsInfix s.data (joinSep sep l).data := by
  induction l with
  | nil => cases h
  | cons x xs ih =>
    rcases List.mem_cons.mp h with rfl | hmem
    · cases xs with
      | nil => exact List.infix_rfl
      | cons y rest =>
        have hpre : s.data <+: (s ++ sep ++ joinSep sep (y :: rest)).data := by
          rw [String.data_append, String.data_append, List.append_assoc]
          exact List.prefix_append _ _
        exact hpre.isInfix
    · cases xs with
      | nil => cases hmem
      | cons y rest =>
        have hsuf : (joinSep sep (y :: rest)).data <:+
            (x ++ sep ++ joinSep sep (y :: rest)).data := by
          rw [String.data_append, String.data_append]
          exact List.suffix_append _ _
        exact (ih hmem).trans hsuf.isInfix

/-- The primary fetch performs at most one network request. -/
theorem fetchDeepSeek_trace (env : SearchUtil.Env) (q : String) :
    (SearchUtil.fetchDeepSeekResults env q).2 = [] ∨
    (SearchUtil.fetchDeepSeekResults env q).2 = [SearchUtil.Ev.netOpenRouter] := by
  unfold SearchUtil.fetchDeepSeekResults
  by_cases h1 : jsTrim q = ""
  · simp [h1]
  by_cases h2 : env.openRouterKey = ""
  · simp [h1, h2]
  rcases h3 : env.openRouterNet (jsTrim q) with ⟨it, msg⟩ | ⟨meta, data⟩ <;>
    simp only [h1, h2, h3, if_false] <;>
    repeat' split
  all_goals simp

/-- The fallback fetch performs at most one network request. -/
theorem fetchNews_trace (env : SearchUtil.Env) (q : String) :
    (SearchUtil.fetchNewsApiResults env q).2 = [] ∨
    (SearchUtil.fetchNewsApiResults env q).2 = [SearchUtil.Ev.netNewsApi] := by
  unfold SearchUtil.fetchNewsApiResults
  by_cases h1 : jsTrim q = ""
  · simp [h1]
  by_cases h2 : env.newsApiKey = ""
  · simp [h1, h2]
  rcases h3 : env.newsNet (SearchUtil.simplifyQueryForNewsApi (jsTrim q)) with ⟨it, msg⟩ | ⟨meta, data⟩ <;>
    simp only [h1, h2, h3, if_false] <;>
    repeat' split
  all_goals simp

/-- The summarization tail only appends events: at most an initializer
event followed by at most one condensation call. -/
theorem afterFetch_trace (result : SearchResult) (pre : List SearchUtil.Ev)
    (sload : Except String Unit) (summ : String → Except String String) :
    ∃ extra, (SearchUtil.afterFetch result pre sload summ).2 = pre ++ extra ∧
      (extra = [] ∨ extra = [SearchUtil.Ev.summarizerInit] ∨
        ∃ inp, extra = [SearchUtil.Ev.summarizerInit, SearchUtil.Ev.condenseCall inp]) := by
  unfold SearchUtil.afterFetch
  split
  · exact ⟨[], by simp, Or.inl rfl⟩
  · split
    · exact ⟨[SearchUtil.Ev.summarizerInit], rfl, Or.inr (Or.inl rfl)⟩
    · split
      · exact ⟨_, rfl, Or.inr (Or.inr ⟨_, rfl⟩)⟩
      · split
        · exact ⟨_, rfl, Or.inr (Or.inr ⟨_, rfl⟩)⟩
        · exact ⟨_, rfl, Or.inr (Or.inr ⟨_, rfl⟩)⟩

/-- The outermost catch does not alter the recorded trace. -/
theorem searchAndSummarizeWith_trace
    (p f : String → Except String (SearchResult × List SearchUtil.Ev))
    (sload : Except String Unit) (summ : String → Except String String)
    (q : String) :
    (SearchUtil.searchAndSummarizeWith p f sload summ q).2 =
      (SearchUtil.resolveWith p f sload summ q).2 := by
  unfold SearchUtil.searchAndSummarizeWith
  rcases h : SearchUtil.resolveWith p f sload summ q with ⟨e, t⟩
  cases e <;> simp

/-- Structure of every full trace of the orchestrator: one primary
call with its network events, then the fallback call (with its network
events) exactly when the staleness heuristic fired on the primary
content, then the summarization events. -/
theorem searchAndSummarize_trace_shape (env : SearchUtil.Env) (q : String) :
    ∃ n0 tf extra : List SearchUtil.Ev,
      (SearchUtil.searchAndSummarize env q).2 =
        (SearchUtil.Ev.primaryCall :: n0) ++ tf ++ extra
      ∧ (n0 = [] ∨ n0 = [SearchUtil.Ev.netOpenRouter])
      ∧ ((SearchUtil.isOutdatedResponse (SearchUtil.fetchDeepSeekResults env q).1.content = false
            ∧ tf = []) ∨
         (SearchUtil.isOutdatedResponse (SearchUtil.fetchDeepSeekResults env q).1.content = true
            ∧ ∃ n1, (n1 = [] ∨ n1 = [SearchUtil.Ev.netNewsApi])
                ∧ tf = SearchUtil.Ev.fallbackCall :: n1))
      ∧ (extra = [] ∨ extra = [SearchUtil.Ev.summarizerInit] ∨
          ∃ inp, extra = [SearchUtil.Ev.summarizerInit, SearchUtil.Ev.condenseCall inp]) := by
  have htr : (SearchUtil.searchAndSummarize env q).2 =
      (SearchUtil.resolveWith (fun s => Except.ok (SearchUtil.fetchDeepSeekResults env s))
        (fun s => Except.ok (SearchUtil.fetchNewsApiResults env s))
        env.summarizerLoad env.summarize q).2 :=
    searchAndSummarizeWith_trace _ _ _ _ _
  have hn0 := fetchDeepSeek_trace env q
  have hn1 := fetchNews_trace env q
  by_cases hst : SearchUtil.isOutdatedResponse (SearchUtil.fetchDeepSeekResults env q).1.content = true
  · obtain ⟨extra, hex, hshape⟩ :=
      afterFetch_trace (SearchUtil.fetchNewsApiResults env q).1
        (SearchUtil.Ev.primaryCall :: (SearchUtil.fetchDeepSeekResults env q).2 ++
          SearchUtil.Ev.fallbackCall :: (SearchUtil.fetchNewsApiResults env q).2)
        env.summarizerLoad env.summarize
    refine ⟨(SearchUtil.fetchDeepSeekResults env q).2,
      SearchUtil.Ev.fallbackCall :: (SearchUtil.fetchNewsApiResults env q).2, extra,
      ?_, hn0, Or.inr ⟨hst, _, hn1, rfl⟩, hshape⟩
    rw [htr]
    simp only [SearchUtil.resolveWith, hst, if_true]
    rw [hex]
    try simp [List.append_assoc]
  · have hst' : SearchUtil.isOutdatedResponse (SearchUtil.fetchDeepSeekResults env q).1.content = false := by
      revert hst
      cases SearchUtil.isOutdatedResponse (SearchUtil.fetchDeepSeekResults env q).1.content <;> simp
    obtain ⟨extra, hex, hshape⟩ :=
      afterFetch_trace (SearchUtil.fetchDeepSeekResults env q).1
        (SearchUtil.Ev.primaryCall :: (SearchUtil.fetchDeepSeekResults env q).2)
        env.summarizerLoad env.summarize
    refine ⟨(SearchUtil.fetchDeepSeekResults env q).2, [], extra,
      ?_, hn0, Or.inl ⟨hst', rfl⟩, hshape⟩
    rw [htr]
    simp only [SearchUtil.resolveWith, hst', if_false, Bool.false_eq_true]
    rw [hex]
    simp

/-- The article formatted at position `i` is a member of the formatted
list started at index `idx`. -/
theorem formatArticles_mem (articles : List SearchUtil.Article) (idx i : Nat)
    (h : i < articles.length) :
    SearchUtil.formatArticle (idx + i) (articles.get ⟨i, h⟩) ∈
      SearchUtil.formatArticles idx articles := by
  induction articles generalizing idx i with
  | nil => simp at h
  | cons a rest ih =>
    cases i with
    | zero =>
      simp [SearchUtil.formatArticles]
    | succ j =>
      have hj : j < rest.length := by simpa using h
      have := ih (idx + 1) j hj
      have harith : idx + (j + 1) = (idx + 1) + j := by omega
      simp only [List.get, harith, SearchUtil.formatArticles]
      exact List.mem_cons_of_mem _ this

/-- C1: a single orchestrator call performs at most one primary fetch,
then at most one fallback fetch, then at most one condensation call,
strictly in that order, and the fallback fetch happens exactly once if
and only if the staleness heuristic fires on the primary content. -/
theorem claim_C1_pipeline_order (env : SearchUtil.Env) (q : String) :
    ∃ t1 t2 t3 : List SearchUtil.Ev,
      (SearchUtil.searchAndSummarize env q).2 = t1 ++ t2 ++ t3
      ∧ t1.countP SearchUtil.isPrimaryEv = 1
      ∧ t1.countP SearchUtil.isFallbackEv = 0
      ∧ t1.countP SearchUtil.isCondenseEv = 0
      ∧ t2.countP SearchUtil.isPrimaryEv = 0
      ∧ t2.countP SearchUtil.isFallbackEv ≤ 1
      ∧ t2.countP SearchUtil.isCondenseEv = 0
      ∧ t3.countP SearchUtil.isPrimaryEv = 0
      ∧ t3.countP SearchUtil.isFallbackEv = 0
      ∧ t3.countP SearchUtil.isCondenseEv ≤ 1
      ∧ (t2.countP SearchUtil.isFallbackEv = 1 ↔
          SearchUtil.isOutdatedResponse (SearchUtil.fetchDeepSeekResults env q).1.content = true) := by
  obtain ⟨n0, tf, extra, htr, hn0, htf, hex⟩ := searchAndSummarize_trace_shape env q
  refine ⟨SearchUtil.Ev.primaryCall :: n0, tf, extra, htr,
    ?_, ?_, ?_, ?_, ?_, ?_, ?_, ?_, ?_, ?_⟩
  all_goals (
    rcases hn0 with rfl | rfl <;>
    rcases htf with ⟨hs, rfl⟩ | ⟨hs, n1, hn1, rfl⟩ <;>
    rcases hex with rfl | rfl | ⟨inp, rfl⟩ <;>
    first
      | (rcases hn1 with rfl | rfl <;>
          simp [hs, List.countP_cons, List.countP_nil,
            SearchUtil.isPrimaryEv, SearchUtil.isFallbackEv, SearchUtil.isCondenseEv])
      | simp [hs, List.countP_cons, List.countP_nil,
          SearchUtil.isPrimaryEv, SearchUtil.isFallbackEv, SearchUtil.isCondenseEv])

set_option maxRecDepth 100000 in
/-- C2: the part_003 staleness heuristic returns true on every content
string shorter than the 150-character threshold, returns true whenever
any phrase of the specification's stale-marker vocabulary (including
the knowledge-cutoff phrases) occurs case-insensitively, and returns
false on a 300-character answer containing none of those markers; it is
a plain function of its string argument. -/
theorem claim_C2_staleness_vocabulary :
    (∀ s : String, s.length < 150 → Part003.isOutdatedResponse s = true)
    ∧ (∀ s p : String, p ∈ specStaleVocab →
        includesStr (jsToLower s) p = true → Part003.isOutdatedResponse s = true)
    ∧ answer300.length = 300
    ∧ specStaleVocab.all (fun p => !includesStr (jsToLower answer300) p) = true
    ∧ Part003.isOutdatedResponse answer300 = false := by
  refine ⟨?_, ?_, by decide, by decide, by decide⟩
  · intro s h
    have hl : (jsToLower s).length < 150 := by rw [jsToLower_length]; exact h
    simp only [Part003.isOutdatedResponse, Bool.or_eq_true, decide_eq_true_eq]
    tauto
  · intro s p hp hinc
    simp only [specStaleVocab, List.mem_cons, List.mem_singleton] at hp
    have hgoal : Part003.isOutdatedResponse s = true → Part003.isOutdatedResponse s = true := id
    rcases hp with rfl | rfl | rfl | rfl | rfl | hp
    · simp only [Part003.isOutdatedResponse, Bool.or_eq_true, decide_eq_true_eq]; tauto
    · simp only [Part003.isOutdatedResponse, Bool.or_eq_true, decide_eq_true_eq]; tauto
    · simp only [Part003.isOutdatedResponse, Bool.or_eq_true, decide_eq_true_eq]; tauto
    · have heq : ("i don\x27t have access to real-time data" : String) =
          "i don\x27t have access to real-time" ++ " data" := rfl
      rw [heq] at hinc
      have hinc' := includesStr_append_left _ _ _ hinc
      simp only [Part003.isOutdatedResponse, Bool.or_eq_true, decide_eq_true_eq]; tauto
    · simp only [Part003.isOutdatedResponse, Bool.or_eq_true, decide_eq_true_eq]; tauto
    · rcases hp with rfl | hfalse
      · simp only [Part003.isOutdatedResponse, Bool.or_eq_true, decide_eq_true_eq]; tauto
      · cases hfalse

/-- Witness for C2: the heuristic evaluated at a short string and at a
string carrying an upper-case knowledge-cutoff marker. -/
theorem claim_C2_witness :
    Part003.isOutdatedResponse "hi" = true ∧
    Part003.isOutdatedResponse "Well, AS OF MY LAST UPDATE nothing happened." = true :=
  ⟨claim_C2_staleness_vocabulary.1 "hi" (by decide),
   claim_C2_staleness_vocabulary.2.1 "Well, AS OF MY LAST UPDATE nothing happened."
     "as of my last update" (by decide) (by decide)⟩

/-- C3: on a query consisting only of whitespace, the orchestrator
returns the fixed prompt string; both fetch helpers reject the query
locally, so the trace contains the two provider calls but no network
request (and the summarizer is never touched). -/
theorem claim_C3_whitespace_no_network (env : SearchUtil.Env) (q : String)
    (h : jsTrim q = "") :
    SearchUtil.searchAndSummarize env q =
      ("Please provide a search query.",
        [SearchUtil.Ev.primaryCall, SearchUtil.Ev.fallbackCall])
    ∧ SearchUtil.netEvents (SearchUtil.searchAndSummarize env q).2 = [] := by
  have hd : SearchUtil.fetchDeepSeekResults env q =
      (⟨"Please provide a search query.", none⟩, []) := by
    unfold SearchUtil.fetchDeepSeekResults
    simp [h]
  have hn : SearchUtil.fetchNewsApiResults env q =
      (⟨"Please provide a search query.", none⟩, []) := by
    unfold SearchUtil.fetchNewsApiResults
    simp [h]
  have hstale : SearchUtil.isOutdatedResponse "Please provide a search query." = true := by
    decide
  have hsc : SearchUtil.shortCircuit "Please provide a search query." = true := by
    decide
  have hmain : SearchUtil.searchAndSummarize env q =
      ("Please provide a search query.",
        [SearchUtil.Ev.primaryCall, SearchUtil.Ev.fallbackCall]) := by
    unfold SearchUtil.searchAndSummarize SearchUtil.searchAndSummarizeWith
      SearchUtil.resolveWith
    simp only [hd, hn, hstale, if_true]
    unfold SearchUtil.afterFetch
    simp [hsc]
  exact ⟨hmain, by rw [hmain]; decide⟩

/-- Witness for C3: the pipeline evaluated on a space-only query in a
concrete environment. -/
theorem claim_C3_witness :
    SearchUtil.searchAndSummarize plainEnv "   " =
      ("Please provide a search query.",
        [SearchUtil.Ev.primaryCall, SearchUtil.Ev.fallbackCall]) :=
  (claim_C3_whitespace_no_network plainEnv "   " (by decide)).1

/-- C5: the orchestrator never lets an exception escape: whatever the
providers and the summarizer do, an exception reaching the outermost
boundary is converted to the single generic apology string, and a
normally produced answer is returned as is. -/
theorem claim_C5_exception_boundary
    (p f : String → Except String (SearchResult × List SearchUtil.Ev))
    (sload : Except String Unit) (summ : String → Except String String) (q : String) :
    (∀ e, (SearchUtil.resolveWith p f sload summ q).1 = Except.error e →
      (SearchUtil.searchAndSummarizeWith p f sload summ q).1 = SearchUtil.apologyString)
    ∧ (∀ s, (SearchUtil.resolveWith p f sload summ q).1 = Except.ok s →
      (SearchUtil.searchAndSummarizeWith p f sload summ q).1 = s) := by
  unfold SearchUtil.searchAndSummarizeWith
  rcases hr : SearchUtil.resolveWith p f sload summ q with ⟨e, t⟩
  cases e <;> constructor <;> intro x hx <;> simp_all

/-- Witness for C5: a primary provider throwing a connection refusal
makes the orchestrator return the apology string. -/
theorem claim_C5_witness :
    (SearchUtil.searchAndSummarizeWith boomProvider okProvider (Except.ok ())
      (fun _ => Except.ok "") "latest news").1 = SearchUtil.apologyString :=
  (claim_C5_exception_boundary boomProvider okProvider (Except.ok ())
    (fun _ => Except.ok "") "latest news").1 "connection refused" rfl

set_option maxRecDepth 100000 in
/-- C4 (amended): if the content entering the summarization step is
shorter than the 200-character threshold or carries one of the
no-results sentinels, condensation is skipped and that content is
returned to the caller verbatim, with no attribution appended (even
when the active result has a known source); the summarizer is never
initialized or called on this path. -/
theorem claim_C4_short_circuit_verbatim (env : SearchUtil.Env) (q : String)
    (h : SearchUtil.shortCircuit (SearchUtil.activeResult env q).content = true) :
    (SearchUtil.searchAndSummarize env q).1 = (SearchUtil.activeResult env q).content
    ∧ (SearchUtil.searchAndSummarize env q).2.countP SearchUtil.isCondenseEv = 0
    ∧ SearchUtil.Ev.summarizerInit ∉ (SearchUtil.searchAndSummarize env q).2 := by
  have hn0 := fetchDeepSeek_trace env q
  have hn1 := fetchNews_trace env q
  unfold SearchUtil.activeResult at h ⊢
  unfold SearchUtil.searchAndSummarize SearchUtil.searchAndSummarizeWith
    SearchUtil.resolveWith
  by_cases hst : SearchUtil.isOutdatedResponse (SearchUtil.fetchDeepSeekResults env q).1.content = true
  · simp only [hst, if_true] at h ⊢
    unfold SearchUtil.afterFetch
    simp only [h, if_true]
    refine ⟨trivial, ?_, ?_⟩
    · rcases hn0 with h0 | h0 <;> rcases hn1 with h1 | h1 <;>
        simp [h0, h1, List.countP_cons, SearchUtil.isCondenseEv]
    · rcases hn0 with h0 | h0 <;> rcases hn1 with h1 | h1 <;>
        simp [h0, h1]
  · simp only [hst, Bool.false_eq_true, if_false] at h ⊢
    unfold SearchUtil.afterFetch
    simp only [h, if_true]
    refine ⟨trivial, ?_, ?_⟩
    · rcases hn0 with h0 | h0 <;>
        simp [h0, List.countP_cons, SearchUtil.isCondenseEv]
    · rcases hn0 with h0 | h0 <;> simp [h0]

set_option maxRecDepth 100000 in
/-- C4 counterexample: in a run where the active result is a short
NewsAPI item (so its `source` is known), the orchestrator returns the
content exactly as is, not the content followed by an attribution line,
refuting the "plus attribution if present" part of the claim. -/
theorem claim_C4_counterexample :
    (SearchUtil.searchAndSummarize envC4 "general question").1 = "Source 1 (Src): T\nD\nC"
    ∧ (SearchUtil.activeResult envC4 "general question").source = some "NewsAPI"
    ∧ SearchUtil.shortCircuit "Source 1 (Src): T\nD\nC" = true
    ∧ ("Source 1 (Src): T\nD\nC" : String) ≠
        "Source 1 (Src): T\nD\nC" ++ "\n\nSource: NewsAPI" := by
  refine ⟨by decide, by decide, by decide, by decide⟩

set_option maxRecDepth 100000 in
/-- Witness for C4 (amended): the short-circuit hypothesis holds in the
`envC4` run and the theorem yields the verbatim return. -/
theorem claim_C4_witness :
    SearchUtil.shortCircuit (SearchUtil.activeResult envC4 "general question").content = true
    ∧ (SearchUtil.searchAndSummarize envC4 "general question").1 =
        (SearchUtil.activeResult envC4 "general question").content :=
  ⟨by decide, (claim_C4_short_circuit_verbatim envC4 "general question" (by decide)).1⟩

/-- C6 (amended): the model-backed condensation path always receives
exactly the active content pre-truncated to the 1500-character budget,
while the local extractive fallback receives the full untruncated
content. -/
theorem claim_C6_truncation_per_strategy
    (p f : String → SearchResult) (summAvail : Bool)
    (aiSumm : String → Except String String) (q : String) (inp : String) :
    (Part003.P3Ev.condenseAI inp ∈ (Part003.searchAndSummarize p f summAvail aiSumm q).2 →
      inp = strTake (Part003.activeResult p f q).content 1500)
    ∧ (Part003.P3Ev.condenseManual inp ∈ (Part003.searchAndSummarize p f summAvail aiSumm q).2 →
      inp = (Part003.activeResult p f q).content) := by
  unfold Part003.searchAndSummarize Part003.condenseStep
  by_cases hsc : Part003.shortCircuit (Part003.activeResult p f q).content = true
  · simp [hsc]
  · cases summAvail
    · rcases hsrc : (Part003.activeResult p f q).source with _ | src <;>
        simp [hsc, hsrc]
    · rcases hai : aiSumm (strTake (Part003.activeResult p f q).content 1500) with e | s <;>
      rcases hsrc : (Part003.activeResult p f q).source with _ | src <;>
        simp [hsc, hai, hsrc]

/-- A pattern containing a character different from `c` never occurs in
a homogeneous string of `c`s. -/
theorem includesStr_replicate_eq_false (n : Nat) (c x : Char) (pat : String)
    (hx : x ∈ pat.data) (hxc : ¬ x = c) :
    includesStr ⟨List.replicate n c⟩ pat = false := by
  by_contra h
  have hb : includesStr ⟨List.replicate n c⟩ pat = true := by
    revert h
    cases includesStr ⟨List.replicate n c⟩ pat <;> simp
  have hinf : List.IsInfix pat.data (List.replicate n c) := of_decide_eq_true hb
  exact hxc (List.eq_of_mem_replicate (hinf.sublist.subset hx))

/-- Patterns avoiding the letter of a homogeneous string never occur in
it; specialization helper for the 2200-character fixture. -/
theorem includesStr_c2200_eq_false (pat : String)
    (h : ∃ x ∈ pat.data, ¬ x = 'a') : includesStr c2200 pat = false := by
  obtain ⟨x, hx, hxa⟩ := h
  exact includesStr_replicate_eq_false 2200 'a' x pat hx hxa

/-- Lower-casing a homogeneous string lower-cases its character. -/
theorem jsToLower_replicate (n : Nat) (c : Char) :
    jsToLower ⟨List.replicate n c⟩ = ⟨List.replicate n (Char.toLower c)⟩ := by
  unfold jsToLower
  rw [show ((⟨List.replicate n c⟩ : String)).data = List.replicate n c from rfl,
    List.map_replicate]

/-- The 2200-character fixture is all lower case already. -/
theorem jsToLower_c2200 : jsToLower c2200 = c2200 := by
  show jsToLower ⟨List.replicate 2200 'a'⟩ = (⟨List.replicate 2200 'a'⟩ : String)
  rw [jsToLower_replicate, show Char.toLower 'a' = 'a' from by decide]

/-- Character count of the 2200-character fixture. -/
theorem c2200_length : c2200.length = 2200 := by
  show (⟨List.replicate 2200 'a'⟩ : String).length = 2200
  rw [strLen_mk, List.length_replicate]

/-- The staleness heuristic does not fire on the 2200-character fixture. -/
theorem isOutdated_c2200 : Part003.isOutdatedResponse c2200 = false := by
  unfold Part003.isOutdatedResponse
  rw [jsToLower_c2200]
  rw [includesStr_c2200_eq_false "no recent information" (by decide),
    includesStr_c2200_eq_false "outdated" (by decide),
    includesStr_c2200_eq_false "no results found" (by decide),
    includesStr_c2200_eq_false "i don\x27t have access to real-time" (by decide),
    includesStr_c2200_eq_false "try using different keywords" (by decide),
    includesStr_c2200_eq_false "my knowledge cutoff" (by decide),
    includesStr_c2200_eq_false "as of my last update" (by decide)]
  rw [c2200_length]
  decide

/-- The short-circuit test does not fire on the 2200-character fixture. -/
theorem shortCircuit_c2200 : Part003.shortCircuit c2200 = false := by
  unfold Part003.shortCircuit
  rw [includesStr_c2200_eq_false "No results found" (by decide),
    includesStr_c2200_eq_false "No recent news found" (by decide)]
  rw [c2200_length]
  decide

/-- The active result of the C6 fixture run. -/
theorem activeResult_c2200 :
    Part003.activeResult pC6 pC6 "any query" = ⟨c2200, none⟩ := by
  unfold Part003.activeResult pC6
  rw [show (SearchResult.mk c2200 none).content = c2200 from rfl, isOutdated_c2200]
  rw [if_neg]
  simp

/-- Trace of a part_003 run that reaches condensation with an
available summarizer whose call throws and a sourceless result: the AI
path receives the truncated content, the manual path the full one. -/
theorem P3_run_trace (p f : String → SearchResult)
    (ai : String → Except String String) (q e : String)
    (hsc : Part003.shortCircuit (Part003.activeResult p f q).content = false)
    (hsrc : (Part003.activeResult p f q).source = none)
    (hai : ai (strTake (Part003.activeResult p f q).content 1500) = Except.error e) :
    (Part003.searchAndSummarize p f true ai q).2 =
      [Part003.P3Ev.condenseAI (strTake (Part003.activeResult p f q).content 1500),
       Part003.P3Ev.condenseManual (Part003.activeResult p f q).content] := by
  unfold Part003.searchAndSummarize Part003.condenseStep
  simp only [hsc, Bool.false_eq_true, if_false, if_true, hai, hsrc]

/-- C6 counterexample: with a 2200-character active content and a
throwing summarizer call, the extractive fallback receives the full
2200-character content, not a blob truncated to the 1000-2000 character
budget, refuting the claim that the truncation applies regardless of
the strategy used. -/
theorem claim_C6_counterexample :
    (Part003.searchAndSummarize pC6 pC6 true aiBoom "any query").2 =
      [Part003.P3Ev.condenseAI (strTake c2200 1500), Part003.P3Ev.condenseManual c2200]
    ∧ c2200.length = 2200
    ∧ (strTake c2200 1500).length = 1500 := by
  refine ⟨?_, c2200_length, ?_⟩
  · have hrun := P3_run_trace pC6 pC6 aiBoom "any query" "summarizer crashed"
      (by rw [activeResult_c2200,
        show (SearchResult.mk c2200 none).content = c2200 from rfl, shortCircuit_c2200])
      (by rw [activeResult_c2200])
      rfl
    rw [hrun, activeResult_c2200,
      show (SearchResult.mk c2200 none).content = c2200 from rfl]
  · show ((⟨(⟨List.replicate 2200 'a'⟩ : String).data.take 1500⟩ : String)).length = 1500
    rw [strLen_mk,
      show ((⟨List.replicate 2200 'a'⟩ : String)).data = List.replicate 2200 'a' from rfl,
      List.take_replicate, List.length_replicate]
    decide

set_option maxRecDepth 100000 in
/-- Witness for C6 (amended): a run whose trace contains a model-backed
condensation call; the theorem identifies its input with the truncated
active content. -/
theorem claim_C6_witness :
    strTake c200 1500 = strTake (Part003.activeResult pC6w pC6w "q").content 1500 :=
  (claim_C6_truncation_per_strategy pC6w pC6w true aiOk "q" (strTake c200 1500)).1
    (by decide)

/-- C7 (amended): on a successful NewsAPI response the fallback fetch
combines every returned article into one blob (each item prefixed with
its position and source name and joined by blank lines) and tags the
result with the NewsAPI source; every article's formatted entry occurs
inside the blob — no minimum-length filter is applied. -/
theorem claim_C7_fallback_combination (env : SearchUtil.Env) (q : String)
    (meta : SearchUtil.HttpMeta) (articles : List SearchUtil.Article)
    (hq : ¬ jsTrim q = "") (hk : ¬ env.newsApiKey = "")
    (hnet : env.newsNet (SearchUtil.simplifyQueryForNewsApi (jsTrim q)) =
      SearchUtil.FetchOutcome.response meta ⟨"ok", some articles⟩)
    (hne : articles ≠ []) :
    (SearchUtil.fetchNewsApiResults env q).1 =
      ⟨SearchUtil.combinedContent articles, some "NewsAPI"⟩
    ∧ ∀ i (h : i < articles.length),
        List.IsInfix (SearchUtil.formatArticle i (articles.get ⟨i, h⟩)).data
          (SearchUtil.combinedContent articles).data := by
  constructor
  · unfold SearchUtil.fetchNewsApiResults
    rcases articles with _ | ⟨a, rest⟩
    · exact absurd rfl hne
    simp [hq, hk, hnet]
  · intro i h
    have hmem := formatArticles_mem articles 0 i h
    rw [Nat.zero_add] at hmem
    exact joinSep_mem_isInfix "\n\n" _ _ hmem

set_option maxRecDepth 100000 in
/-- Witness for C7 (amended): the combination evaluated on the
five-article fixture. -/
theorem claim_C7_witness :
    (SearchUtil.fetchNewsApiResults envC7 "news").1 =
      ⟨SearchUtil.combinedContent as5, some "NewsAPI"⟩ :=
  (claim_C7_fallback_combination envC7 "news" ⟨true, 200, "OK"⟩ as5
    (by decide) (by decide) rfl (by decide)).1

set_option maxRecDepth 100000 in
/-- C7 counterexample: with five articles of which the fourth has
empty content (shorter than any positive minimum-length filter), the
combined blob still contains the fourth article's entry, and no
article URL appears in the blob — refuting the claimed filtering and
URL prefixing. -/
theorem claim_C7_counterexample :
    includesStr (SearchUtil.fetchNewsApiResults envC7 "news").1.content "TinyFour" = true
    ∧ includesStr (SearchUtil.fetchNewsApiResults envC7 "news").1.content
        "https://example.com/4" = false
    ∧ ((as5.get ⟨3, by decide⟩).content.getD "").length = 0 := by
  refine ⟨by decide, by decide, by decide⟩

/-- C8 (amended): attribution handling of the part_003 orchestrator:
on the short-circuit path the content is returned bare even when the
source is known; on the condensation path the `Source:` line is
appended exactly when the active result's `source` is set, and nothing
is appended when it is absent. -/
theorem claim_C8_attribution (p f : String → SearchResult) (summAvail : Bool)
    (aiSumm : String → Except String String) (q : String) :
    (Part003.shortCircuit (Part003.activeResult p f q).content = true →
      (Part003.searchAndSummarize p f summAvail aiSumm q).1 =
        (Part003.activeResult p f q).content)
    ∧ (Part003.shortCircuit (Part003.activeResult p f q).content = false →
        ((Part003.activeResult p f q).source = none →
          (Part003.searchAndSummarize p f summAvail aiSumm q).1 =
            (Part003.condenseStep summAvail aiSumm (Part003.activeResult p f q).content).1)
        ∧ ∀ src, (Part003.activeResult p f q).source = some src →
          (Part003.searchAndSummarize p f summAvail aiSumm q).1 =
            (Part003.condenseStep summAvail aiSumm (Part003.activeResult p f q).content).1
              ++ "\n\nSource: " ++ src) := by
  refine ⟨?_, fun h => ⟨?_, ?_⟩⟩
  · intro h
    unfold Part003.searchAndSummarize
    simp [h]
  · intro hsrc
    unfold Part003.searchAndSummarize
    simp [h, hsrc]
  · intro src hsrc
    unfold Part003.searchAndSummarize
    simp [h, hsrc]

set_option maxRecDepth 100000 in
/-- Witness for C8 (amended): a condensation-path run whose active
result carries a source gets the attribution line appended. -/
theorem claim_C8_witness :
    (Part003.searchAndSummarize p8 f8w true as8 "query").1 =
      (Part003.condenseStep true as8 (Part003.activeResult p8 f8w "query").content).1
        ++ "\n\nSource: " ++ "DeepSeek News" :=
  ((claim_C8_attribution p8 f8w true as8 "query").2 (by decide)).2 "DeepSeek News" (by decide)

/-- C8 counterexample: a short fallback result with a known source is
returned without any attribution line, refuting the "if and only if"
form of the claim. -/
theorem claim_C8_counterexample :
    (Part003.searchAndSummarize p8 f8 true as8 "query").1 = "hi"
    ∧ (Part003.activeResult p8 f8 "query").source = some "DeepSeek News"
    ∧ includesStr "hi" "Source:" = false := by
  refine ⟨by decide, by decide, by decide⟩

/-- Once the singleton's init flag is set, no call ever attempts a
pipeline load again. -/
theorem runInit_of_initStarted {H : Type} (os : List (Except Unit H))
    (st : Part003.SummState H) (h : st.initStarted = true) :
    (Part003.runInit os st).2 = 0 := by
  induction os generalizing st with
  | nil => rfl
  | cons o rest ih =>
    unfold Part003.runInit Part003.initSummarizer
    cases hfail : st.failed
    · simp [hfail, h, ih st h]
    · simp [hfail, ih st h]

/-- Over any sequence of calls from any state, at most one pipeline
load is ever attempted. -/
theorem runInit_le_one {H : Type} (os : List (Except Unit H))
    (st : Part003.SummState H) : (Part003.runInit os st).2 ≤ 1 := by
  induction os generalizing st with
  | nil => simp [Part003.runInit]
  | cons o rest ih =>
    unfold Part003.runInit Part003.initSummarizer
    cases hfail : st.failed
    · cases hcond : st.summ.isNone && !st.initStarted
      · simp only [hfail, hcond, Bool.false_eq_true, if_false]
        simpa using ih st
      · rcases o with e | hdl
        · simp only [hfail, hcond, if_true, Bool.false_eq_true, if_false]
          rw [runInit_of_initStarted rest (Part003.SummState.mk st.summ true true) rfl]
        · simp only [hfail, hcond, if_true, Bool.false_eq_true, if_false]
          rw [runInit_of_initStarted rest (Part003.SummState.mk (some hdl) true false) rfl]
    · simp only [hfail, if_true]
      simpa using ih st

/-- C9: the summarizer backend handle of part_003 is a lazy singleton:
over every sequence of calls the pipeline load is attempted at most
once; a call finding a cached handle returns exactly that handle and
leaves the state untouched without loading; and once a failure is
recorded every later call returns `null` immediately without retrying
the load. -/
theorem claim_C9_lazy_singleton (H : Type) (outcomes : List (Except Unit H)) :
    (Part003.runInit outcomes (Part003.SummState.mk none false false)).2 ≤ 1
    ∧ (∀ (o : Except Unit H) (st : Part003.SummState H) (h : H),
        st.summ = some h → st.failed = false →
        Part003.initSummarizer o st = (some h, st, false))
    ∧ (∀ (o : Except Unit H) (st : Part003.SummState H),
        st.failed = true → Part003.initSummarizer o st = (none, st, false)) := by
  refine ⟨runInit_le_one _ _, ?_, ?_⟩
  · intro o st h hsumm hfail
    unfold Part003.initSummarizer
    simp [hsumm, hfail]
  · intro o st hfail
    unfold Part003.initSummarizer
    simp [hfail]

/-- Witness for C9: a concrete call sequence with a success followed by
further calls, and the cached-handle and cached-failure cases. -/
theorem claim_C9_witness :
    (Part003.runInit [Except.ok 5, Except.ok 6, Except.error ()]
      (Part003.SummState.mk (none : Option Nat) false false)).2 ≤ 1
    ∧ Part003.initSummarizer (Except.ok 7)
        (Part003.SummState.mk (some 3) true false) = (some 3, Part003.SummState.mk (some 3) true false, false)
    ∧ Part003.initSummarizer (Except.ok (9 : Nat))
        (Part003.SummState.mk none true true) = (none, Part003.SummState.mk none true true, false) :=
  ⟨(claim_C9_lazy_singleton Nat [Except.ok 5, Except.ok 6, Except.error ()]).1,
   (claim_C9_lazy_singleton Nat []).2.1 (Except.ok 7)
     (Part003.SummState.mk (some 3) true false) 3 rfl rfl,
   (claim_C9_lazy_singleton Nat []).2.2 (Except.ok 9)
     (Part003.SummState.mk none true true) rfl⟩

/-- Length of a concatenation of strings. -/
theorem strLength_append (a b : String) : (a ++ b).length = a.length + b.length := by
  show (a ++ b).data.length = a.data.length + b.data.length
  rw [String.data_append, List.length_append]

/-- The greedy sentence loop keeps the running summary within one
character of the budget: the guard is computed from the untrimmed
sentence while the trimmed sentence plus the two joining characters is
appended, which can overshoot by exactly one. -/
theorem greedyTake_length_le (maxLength : Nat) (sentences : List String)
    (summary : String) (h : summary.length ≤ maxLength + 1) :
    (Part003.greedyTake maxLength sentences summary).length ≤ maxLength + 1 := by
  induction sentences generalizing summary with
  | nil => simpa [Part003.greedyTake] using h
  | cons sentence rest ih =>
    unfold Part003.greedyTake
    by_cases hg : summary.length + sentence.length + 1 > maxLength
    · simp only [hg, if_true]
      exact h
    · simp only [hg, if_false]
      apply ih
      by_cases hs : summary = ""
      · simp only [hs, if_true]
        have htr := jsTrim_length_le sentence
        have hz : (("" : String)).length = 0 := rfl
        rw [hs] at hg
        rw [hz] at hg
        omega
      · simp only [hs, if_false]
        rw [strLength_append, strLength_append]
        have htr := jsTrim_length_le sentence
        have h2 : ((". " : String)).length = 2 := rfl
        rw [h2]
        omega

/-- C10: the local extractive fallback returns the content unchanged
whenever it already fits the budget, and otherwise returns a summary
whose length exceeds the budget by at most 3 characters (the joining
period or the ellipsis marker). -/
theorem claim_C10_manual_summary_bounds (content : String) (maxLength : Nat)
    (hpos : 0 < maxLength) :
    (content.length ≤ maxLength →
      Part003.createManualSummary content maxLength = content)
    ∧ (maxLength < content.length →
      (Part003.createManualSummary content maxLength).length ≤ maxLength + 3) := by
  constructor
  · intro h
    unfold Part003.createManualSummary
    simp [h]
  · intro h
    unfold Part003.createManualSummary
    have hnot : ¬ content.length ≤ maxLength := by omega
    simp only [hnot, if_false]
    set g := Part003.greedyTake maxLength (Part003.splitSentences content) "" with hgdef
    have hb : g.length ≤ maxLength + 1 := by
      rw [hgdef]
      exact greedyTake_length_le maxLength (Part003.splitSentences content) ""
        (by have hz0 : (("" : String)).length = 0 := rfl
            omega)
    by_cases hz : g = ""
    · simp only [hz]
      simp
      have h1 : (strTake content maxLength).length ≤ maxLength := by
        show (content.data.take maxLength).length ≤ maxLength
        simp [List.length_take]
      have h3 : (("..." : String)).length = 3 := rfl
      omega
    · cases hpb : Part003.endsWithPunct g
      · have hgp : ¬ (g ++ "." = "") := by
          intro hcon
          have h0 : (g ++ ".").length = 0 := by rw [hcon]; rfl
          rw [strLength_append] at h0
          have h1 : (("." : String)).length = 1 := rfl
          omega
        simp [hz, hpb, hgp]
        have h1 : (("." : String)).length = 1 := rfl
        omega
      · simp [hz, hpb]
        omega

/-- Witness for C10: the fallback evaluated below and above the budget. -/
theorem claim_C10_witness :
    Part003.createManualSummary "hello" 10 = "hello"
    ∧ (Part003.createManualSummary "abcdefghijkl" 5).length ≤ 8 :=
  ⟨(claim_C10_manual_summary_bounds "hello" 10 (by decide)).1 (by decide),
   (claim_C10_manual_summary_bounds "abcdefghijkl" 5 (by decide)).2 (by decide)⟩
